import Mathlib

/-!
Verification of the image-processor pipeline
(`src/app/api/process-image/route.ts`) against its specification.

The shallow embedding below translates the route handler's pure control
flow and arithmetic into Lean: the dimension planner, the remove.bg retry
loop, the blur-amount coercion, the geometry threaded through the sharp
calls, and the shape of the JSON responses.  JavaScript numbers that the
claims depend on are exact here (`Nat`/`Rat`); `Math.round` is modelled as
round-half-up on nonnegative rationals, which is exact for the inputs the
handler feeds it.
-/

namespace ImageProcessor

/-- `Math.round (a / b)` for natural `a b` with `b > 0`:
round-half-up, i.e. `⌊a/b + 1/2⌋ = (2a + b) / (2b)` in integer division. -/
def jsRound (a b : Nat) : Nat := (2 * a + b) / (2 * b)

/-- `calculateResizeDimensions` from `route.ts` lines 210–224, verbatim:
if both axes are within the bound return them unchanged; otherwise the
longer axis becomes `maxDimension` and the shorter axis is
`Math.round(shorter * maxDimension / longer)`. -/
def calculateResizeDimensions (width height maxDimension : Nat) : Nat × Nat :=
  if width ≤ maxDimension ∧ height ≤ maxDimension then
    (width, height)
  else if width > height then
    (maxDimension, jsRound (height * maxDimension) width)
  else
    (jsRound (width * maxDimension) height, maxDimension)

/-- Division bounds characterising `jsRound`: `2b·q ≤ 2a + b` and
`2a + b < 2b·(q + 1)`, i.e. `|q - a/b| ≤ 1/2`. -/
theorem jsRound_bounds (a b : Nat) (hb : 0 < b) :
    2 * b * jsRound a b ≤ 2 * a + b ∧ 2 * a + b < 2 * b * (jsRound a b + 1) := by
  have h2b : 0 < 2 * b := by omega
  have h1 : 2 * b * ((2 * a + b) / (2 * b)) + (2 * a + b) % (2 * b) = 2 * a + b :=
    Nat.div_add_mod (2 * a + b) (2 * b)
  have h2 : (2 * a + b) % (2 * b) < 2 * b := Nat.mod_lt (2 * a + b) h2b
  unfold jsRound
  refine ⟨Nat.le.intro h1, ?_⟩
  have hexp : 2 * b * ((2 * a + b) / (2 * b) + 1)
      = 2 * b * ((2 * a + b) / (2 * b)) + 2 * b := by ring
  rw [hexp]
  conv_lhs => rw [← h1]
  exact Nat.add_lt_add_left h2 _

theorem jsRound_le (a b m : Nat) (hb : 0 < b) (h : 2 * a + b < 2 * b * (m + 1)) :
    jsRound a b ≤ m := by
  have hbnd := (jsRound_bounds a b hb).1
  by_contra hc
  push_neg at hc
  have hmul : 2 * b * (m + 1) ≤ 2 * b * jsRound a b := Nat.mul_le_mul_left _ hc
  linarith

theorem jsRound_self_mul (n M : Nat) (hn : 1 ≤ n) : jsRound (n * M) n = M := by
  unfold jsRound
  rw [show 2 * (n * M) + n = 2 * n * M + n by ring]
  rw [Nat.mul_add_div (by omega : 0 < 2 * n)]
  rw [Nat.div_eq_of_lt (by omega : n < 2 * n)]
  omega

/-- C1.  For all positive source dimensions and a positive bound, the
planner (i) returns the input unchanged when both axes are within the
bound; (ii) otherwise has output maximum exactly `maxDimension`, the
longer input axis mapped to `maxDimension` and the shorter to
`round(shorter * M / longer)`, which matches the exact scaled value to
within half a pixel; (iii) maps square over-bound inputs to `(M, M)`. -/
theorem calculateResizeDimensions_spec (w h M : Nat)
    (hw : 1 ≤ w) (hh : 1 ≤ h) (_hM : 1 ≤ M) :
    ((w ≤ M ∧ h ≤ M) → calculateResizeDimensions w h M = (w, h)) ∧
    (¬(w ≤ M ∧ h ≤ M) →
      max (calculateResizeDimensions w h M).1 (calculateResizeDimensions w h M).2 = M ∧
      (h < w → calculateResizeDimensions w h M = (M, jsRound (h * M) w) ∧
        2 * w * jsRound (h * M) w ≤ 2 * (h * M) + w ∧
        2 * (h * M) ≤ 2 * w * jsRound (h * M) w + w) ∧
      (w ≤ h → calculateResizeDimensions w h M = (jsRound (w * M) h, M) ∧
        2 * h * jsRound (w * M) h ≤ 2 * (w * M) + h ∧
        2 * (w * M) ≤ 2 * h * jsRound (w * M) h + h)) ∧
    ((w = h ∧ M < w) → calculateResizeDimensions w h M = (M, M)) := by
  refine ⟨?_, ?_, ?_⟩
  · intro hin
    simp only [calculateResizeDimensions, if_pos hin]
  · intro hout
    by_cases hwh : h < w
    · have hplan : calculateResizeDimensions w h M = (M, jsRound (h * M) w) := by
        unfold calculateResizeDimensions
        rw [if_neg hout, if_pos (by omega : w > h)]
      have hb := jsRound_bounds (h * M) w (by omega)
      have hmono : h * M ≤ w * M := Nat.mul_le_mul_right M (by omega)
      have hle : jsRound (h * M) w ≤ M := by
        apply jsRound_le _ _ _ (by omega)
        have hexp : 2 * w * (M + 1) = 2 * (w * M) + 2 * w := by ring
        omega
      have hexp2 : 2 * w * (jsRound (h * M) w + 1)
          = 2 * w * jsRound (h * M) w + 2 * w := by ring
      rw [hplan]
      refine ⟨by simp [Nat.max_eq_left hle], fun _ => ⟨rfl, hb.1, by omega⟩, ?_⟩
      intro hc
      omega
    · push_neg at hwh
      have hplan : calculateResizeDimensions w h M = (jsRound (w * M) h, M) := by
        unfold calculateResizeDimensions
        rw [if_neg hout, if_neg (by omega : ¬ w > h)]
      have hb := jsRound_bounds (w * M) h (by omega)
      have hmono : w * M ≤ h * M := Nat.mul_le_mul_right M hwh
      have hle : jsRound (w * M) h ≤ M := by
        apply jsRound_le _ _ _ (by omega)
        have hexp : 2 * h * (M + 1) = 2 * (h * M) + 2 * h := by ring
        omega
      have hexp2 : 2 * h * (jsRound (w * M) h + 1)
          = 2 * h * jsRound (w * M) h + 2 * h := by ring
      rw [hplan]
      refine ⟨by simp [Nat.max_eq_right hle], fun hc => absurd hc (by omega),
        fun _ => ⟨rfl, hb.1, by omega⟩⟩
  · rintro ⟨rfl, hlt⟩
    have hplan : calculateResizeDimensions w w M = (jsRound (w * M) w, M) := by
      unfold calculateResizeDimensions
      rw [if_neg (by omega), if_neg (by omega : ¬ w > w)]
    rw [hplan, jsRound_self_mul w M hw]

/-- Witness for C1 at a concrete over-bound input 1600×1200 with bound 800:
the planner returns (800, 600). -/
theorem calculateResizeDimensions_spec_witness :
    calculateResizeDimensions 1600 1200 800 = (800, jsRound (1200 * 800) 1600) ∧
    calculateResizeDimensions 1600 1200 800 = (800, 600) := by
  have h := calculateResizeDimensions_spec 1600 1200 800
    (by decide) (by decide) (by decide)
  refine ⟨((h.2.1 (by decide)).2.1 (by decide)).1, by decide⟩

/-! ## The remove.bg retry loop (`route.ts` lines 110–146)

`removeBackgroundFromImageBase64` either resolves to a result object whose
`base64img` field may be missing or empty (both falsy in JavaScript), or
rejects with an error that may carry `response.status`,
`response.data.errors[0].title`, `response.data.message` and `message`.
One `CallResult` describes the outcome of one service invocation; the loop
reads invocation `n` from `responses n`. -/

/-- The fields of a rejected call that the catch block inspects.
`none` models an absent (undefined) field. -/
structure UpstreamError where
  status : Option Nat
  title : Option String
  dataMessage : Option String
  message : String
deriving DecidableEq

/-- Outcome of one `removeBackgroundFromImageBase64` invocation. -/
inductive CallResult where
  | success (base64img : Option String)
  | thrown (e : UpstreamError)
deriving DecidableEq

/-- The JavaScript `a || b || ...` chain over possibly-absent strings:
an absent field or an empty string falls through to the next alternative. -/
def firstTruthy : List (Option String) → String → String
  | [], d => d
  | none :: rest, d => firstTruthy rest d
  | some s :: rest, d => if s = "" then firstTruthy rest d else s

/-- `error.response?.data?.errors?.[0]?.title || error.response?.data?.message
|| error.message || 'Failed to remove background'` (`route.ts` 136–139). -/
def errorMessageOf (e : UpstreamError) : String :=
  firstTruthy [e.title, e.dataMessage, some e.message] "Failed to remove background"

/-- How the matting stage ends: a decoded payload, the JSON error response
the handler returns (status plus message), or the loop falling through with
no result (only possible with a zero attempt budget). -/
inductive MatteOutcome where
  | ok (payload : String)
  | err (status : Nat) (message : String)
  | fallthroughExit
deriving DecidableEq

/-- A complete run of the retry loop: its outcome, the milliseconds slept
before each retry (in order), and how many service invocations happened. -/
structure MatteRun where
  outcome : MatteOutcome
  delays : List Nat
  calls : Nat
deriving DecidableEq

/-- The terminal error produced when a resolved call has a falsy
`base64img`: the validation `throw new Error('Invalid response from
background removal service')` carries no `response`, so the catch block
returns it with status 500 (`route.ts` 123–126, 135–143). -/
def invalidResponseRun : MatteRun :=
  ⟨.err 500 "Background removal failed: Invalid response from background removal service",
   [], 1⟩

/-- The `while (attempt < maxRetries && !success)` loop of `route.ts`
114–146, with `fuel = maxRetries - attempt` making the recursion
structural.  A resolved call with a truthy payload exits the loop; a
resolved call with a falsy payload throws and the catch block returns a
terminal 500; a rejected call with status 429 and attempts remaining
sleeps `2^attempt * 1000` ms (`attempt` already incremented) and retries;
any other rejection returns the upstream status (defaulting to 500) and
message immediately. -/
def matteLoop (responses : Nat → CallResult) : Nat → Nat → MatteRun
  | _, 0 => ⟨.fallthroughExit, [], 0⟩
  | attempt, fuel + 1 =>
    match responses attempt with
    | .success (some payload) =>
        if payload = "" then invalidResponseRun else ⟨.ok payload, [], 1⟩
    | .success none => invalidResponseRun
    | .thrown e =>
        if e.status = some 429 ∧ fuel ≠ 0 then
          let r := matteLoop responses (attempt + 1) fuel
          ⟨r.outcome, 2 ^ (attempt + 1) * 1000 :: r.delays, r.calls + 1⟩
        else
          ⟨.err (e.status.getD 500)
            ("Background removal failed: " ++ errorMessageOf e), [], 1⟩

/-- The loop as the handler enters it: `attempt = 0`, `maxRetries = 3`. -/
def removeBackgroundRun (responses : Nat → CallResult) : MatteRun :=
  matteLoop responses 0 3

theorem matteLoop_calls_le (responses : Nat → CallResult) (attempt fuel : Nat) :
    (matteLoop responses attempt fuel).calls ≤ fuel := by
  induction fuel generalizing attempt with
  | zero => simp [matteLoop]
  | succ n ih =>
    unfold matteLoop
    rcases responses attempt with p | e
    · rcases p with _ | p
      · simp [invalidResponseRun]
      · dsimp only
        split <;> simp [invalidResponseRun]
    · dsimp only
      split
      · have := ih (attempt + 1)
        simp
        omega
      · simp

/-- One loop iteration on a 429 rejection with attempts remaining:
increment the attempt counter, sleep `2^attempt * 1000` ms, recurse. -/
theorem matteLoop_step_429 (responses : Nat → CallResult) (attempt fuel : Nat)
    (e : UpstreamError) (hresp : responses attempt = .thrown e)
    (hst : e.status = some 429) :
    matteLoop responses attempt (fuel + 2) =
      ⟨(matteLoop responses (attempt + 1) (fuel + 1)).outcome,
       2 ^ (attempt + 1) * 1000 :: (matteLoop responses (attempt + 1) (fuel + 1)).delays,
       (matteLoop responses (attempt + 1) (fuel + 1)).calls + 1⟩ := by
  conv_lhs => unfold matteLoop
  rw [hresp]
  dsimp only
  rw [if_pos (show e.status = some 429 ∧ fuel + 1 ≠ 0 from ⟨hst, by omega⟩)]

/-- One loop iteration on a rejection whose status is not 429: the loop
returns immediately with the upstream status (500 when absent) and the
`title || data.message || message || fallback` text, no delay. -/
theorem matteLoop_step_other (responses : Nat → CallResult) (attempt fuel : Nat)
    (e : UpstreamError) (hresp : responses attempt = .thrown e)
    (hst : e.status ≠ some 429) :
    matteLoop responses attempt (fuel + 1) =
      ⟨.err (e.status.getD 500)
        ("Background removal failed: " ++ errorMessageOf e), [], 1⟩ := by
  conv_lhs => unfold matteLoop
  rw [hresp]
  dsimp only
  rw [if_neg (show ¬(e.status = some 429 ∧ fuel ≠ 0) from fun hcon => hst hcon.1)]

/-- One loop iteration on any rejection when this is the last budgeted
attempt (`attempt + 1 = maxRetries`): the retry guard's second conjunct
fails, so the loop returns the terminal error even for a 429. -/
theorem matteLoop_step_exhaust (responses : Nat → CallResult) (attempt : Nat)
    (e : UpstreamError) (hresp : responses attempt = .thrown e) :
    matteLoop responses attempt 1 =
      ⟨.err (e.status.getD 500)
        ("Background removal failed: " ++ errorMessageOf e), [], 1⟩ := by
  conv_lhs => unfold matteLoop
  rw [hresp]
  dsimp only
  rw [if_neg (show ¬(e.status = some 429 ∧ (0 : Nat) ≠ 0) from fun hcon => hcon.2 rfl)]

/-- C2.  The retry loop makes at most 3 attempts; a rejection with status
429 while attempts remain sleeps `2^attempt` seconds (2 s after the first
failure, 4 s after the second, as the exponent is the just-incremented
attempt counter) and continues with the next response; a rejection with
any other status (or none) returns immediately with no delay, no further
calls, and the upstream status (500 when absent) and message. -/
theorem removeBackground_retry_policy :
    (∀ responses, (removeBackgroundRun responses).calls ≤ 3) ∧
    (∀ responses attempt fuel e,
      responses attempt = .thrown e → e.status = some 429 →
      matteLoop responses attempt (fuel + 2) =
        ⟨(matteLoop responses (attempt + 1) (fuel + 1)).outcome,
         2 ^ (attempt + 1) * 1000 :: (matteLoop responses (attempt + 1) (fuel + 1)).delays,
         (matteLoop responses (attempt + 1) (fuel + 1)).calls + 1⟩) ∧
    (∀ responses attempt fuel e,
      responses attempt = .thrown e → e.status ≠ some 429 →
      matteLoop responses attempt (fuel + 1) =
        ⟨.err (e.status.getD 500)
          ("Background removal failed: " ++ errorMessageOf e), [], 1⟩) :=
  ⟨fun responses => matteLoop_calls_le responses 0 3,
   matteLoop_step_429, matteLoop_step_other⟩

/-- A response stream that is rate-limited on the first two attempts and
succeeds on the third — the scenario of §8 of the spec. -/
def resp429ThenOk : Nat → CallResult
  | 0 => .thrown ⟨some 429, some "Rate limit exceeded", none, "Request failed"⟩
  | 1 => .thrown ⟨some 429, some "Rate limit exceeded", none, "Request failed"⟩
  | _ => .success (some "mattedImageBase64")

/-- Witness for C2: on `resp429ThenOk` the loop makes 3 calls, sleeps
2000 ms then 4000 ms, and succeeds; a non-429 failure on attempt one
returns immediately with the upstream status and message. -/
theorem removeBackground_retry_policy_witness :
    (removeBackgroundRun resp429ThenOk).calls ≤ 3 ∧
    matteLoop resp429ThenOk 0 3 =
      ⟨(matteLoop resp429ThenOk 1 2).outcome,
       2 ^ 1 * 1000 :: (matteLoop resp429ThenOk 1 2).delays,
       (matteLoop resp429ThenOk 1 2).calls + 1⟩ ∧
    removeBackgroundRun resp429ThenOk =
      ⟨.ok "mattedImageBase64", [2000, 4000], 3⟩ ∧
    matteLoop (fun _ => .thrown ⟨some 402, some "Insufficient credits", none, "Request failed"⟩) 0 3 =
      ⟨.err 402 "Background removal failed: Insufficient credits", [], 1⟩ := by
  refine ⟨removeBackground_retry_policy.1 resp429ThenOk,
    removeBackground_retry_policy.2.1 resp429ThenOk 0 1 _ rfl rfl, by decide, ?_⟩
  have h := removeBackground_retry_policy.2.2
    (fun _ => .thrown ⟨some 402, some "Insufficient credits", none, "Request failed"⟩)
    0 2 ⟨some 402, some "Insufficient credits", none, "Request failed"⟩ rfl (by decide)
  simpa [errorMessageOf, firstTruthy] using h

/-- A matte service that answers 429 to every attempt. -/
def resp429Always : Nat → CallResult :=
  fun _ => .thrown ⟨some 429, some "Rate limit exceeded", none,
    "Request failed with status code 429"⟩

/-- Counterexample to C3: when the service answers 429 on all three
attempts, the handler returns the upstream 429 status and the upstream
error title, not an error whose reason is "retries_exhausted" — no such
reason exists anywhere in the loop. -/
theorem retries_exhausted_counterexample :
    removeBackgroundRun resp429Always =
      ⟨.err 429 "Background removal failed: Rate limit exceeded", [2000, 4000], 3⟩ ∧
    (removeBackgroundRun resp429Always).outcome ≠ .err 429 "retries_exhausted" ∧
    "Background removal failed: Rate limit exceeded" ≠ "retries_exhausted" := by
  refine ⟨by decide, by decide, by decide⟩

/-- C3 amended.  Exhausting the attempt budget on rate limiting fails the
pipeline with the upstream 429 status and the upstream message of the
final attempt (after 2000 ms and 4000 ms of backoff); the code has no
distinct "retries_exhausted" error reason. -/
theorem retries_exhausted_amended (e : UpstreamError) (responses : Nat → CallResult)
    (hst : e.status = some 429) (hresp : ∀ n, n < 3 → responses n = .thrown e) :
    removeBackgroundRun responses =
      ⟨.err 429 ("Background removal failed: " ++ errorMessageOf e), [2000, 4000], 3⟩ := by
  have h0 := matteLoop_step_429 responses 0 1 e (hresp 0 (by omega)) hst
  have h1 := matteLoop_step_429 responses 1 0 e (hresp 1 (by omega)) hst
  have h2 := matteLoop_step_exhaust responses 2 e (hresp 2 (by omega))
  unfold removeBackgroundRun
  rw [h0, h1, h2, hst]
  rfl

/-- Witness for the amended C3 at the concrete all-429 stream. -/
theorem retries_exhausted_amended_witness :
    removeBackgroundRun resp429Always =
      ⟨.err 429 ("Background removal failed: " ++
        errorMessageOf ⟨some 429, some "Rate limit exceeded", none,
          "Request failed with status code 429"⟩), [2000, 4000], 3⟩ :=
  retries_exhausted_amended _ resp429Always rfl (fun _ _ => rfl)

/-- A service that resolves with a missing payload on the first attempt
and would deliver a good payload on the second. -/
def respEmptyThenGood : Nat → CallResult
  | 0 => .success none
  | _ => .success (some "goodPayload")

/-- Counterexample to C4: a resolved response with a missing payload ends
the loop at once — the run makes one call out of the budget of three,
sleeps never, and returns a terminal 500 even though the very next
attempt would have produced a parseable payload. -/
theorem empty_payload_retry_counterexample :
    removeBackgroundRun respEmptyThenGood = invalidResponseRun ∧
    (removeBackgroundRun respEmptyThenGood).calls = 1 ∧
    (1 : Nat) < 3 ∧
    (removeBackgroundRun respEmptyThenGood).outcome ≠ .ok "goodPayload" := by
  refine ⟨by decide, by decide, by decide, by decide⟩

/-- C4 amended.  A resolved call whose `base64img` is missing or empty is
terminal, not retryable: the validation throw carries no `response.status`,
so the catch block returns a 500 "Invalid response" error immediately and
the loop never reaches the remaining attempts. -/
theorem empty_payload_terminal (responses : Nat → CallResult)
    (attempt fuel : Nat) (p : Option String)
    (hresp : responses attempt = .success p)
    (hp : p = none ∨ p = some "") :
    matteLoop responses attempt (fuel + 1) = invalidResponseRun := by
  conv_lhs => unfold matteLoop
  rw [hresp]
  rcases hp with hp | hp <;> rw [hp]
  dsimp only
  rw [if_pos rfl]

/-- Witness for the amended C4 at the concrete missing-payload stream. -/
theorem empty_payload_terminal_witness :
    matteLoop respEmptyThenGood 0 3 = invalidResponseRun :=
  empty_payload_terminal respEmptyThenGood 0 2 none rfl (Or.inl rfl)

/-! ## Buffer geometry through the sharp calls (`route.ts` 100–105,
148–176)

The image codec (sharp) is an external collaborator: §4.2 of the spec
gives its contract and the definitions below reproduce it, together with
the rounding sharp documents for aspect-preserving fits. -/

/-- Modelled from the spec: `ImageCodec.resize` with mode `inside` plus
`withoutEnlargement` (§4.2: fits within the box without cropping or
enlarging).  When the source already fits it is kept; otherwise the
constrained axis (the one with the larger source/box ratio) becomes the
box bound and the other axis is the source scaled by the same factor,
rounded to the nearest integer — the rounding sharp applies when it
resolves a `fit: inside` request. -/
def insideFitWE (w h bw bh : Nat) : Nat × Nat :=
  if w ≤ bw ∧ h ≤ bh then (w, h)
  else if w * bh > h * bw then (bw, jsRound (h * bw) w)
  else (jsRound (w * bh) h, bh)

/-- Modelled from the spec: `ImageCodec.resize` with mode `contain`
(§4.2: pads/centers to exactly the target box), so the output dimensions
are the box itself. -/
def containFit (bw bh : Nat) : Nat × Nat := (bw, bh)

/-- Modelled from the spec: the precondition of `compositeOver` (§4.2).
sharp accepts an overlay no larger than the background on either axis and
raises an error otherwise; blur and modulate preserve dimensions, so the
backdrop plate carries the resize output dimensions unchanged. -/
def canComposite (bg fg : Nat × Nat) : Bool :=
  fg.1 ≤ bg.1 && fg.2 ≤ bg.2

/-- The pixel dimensions of the buffers the orchestrator threads into the
final composite: the planner box, the canonical resized original
(`resize(planned, inside, withoutEnlargement)`), the matte
(`resize(planned, contain)`) and the backdrop (blur/modulate of the
canonical buffer). -/
structure PipelineGeometry where
  planned : Nat × Nat
  resized : Nat × Nat
  matte : Nat × Nat
  backdrop : Nat × Nat
deriving DecidableEq

/-- Dimension flow of one run of the main handler on a `w × h` source. -/
def pipelineGeometry (w h : Nat) : PipelineGeometry :=
  let planned := calculateResizeDimensions w h 800
  let resized := insideFitWE w h planned.1 planned.2
  { planned := planned, resized := resized,
    matte := containFit planned.1 planned.2, backdrop := resized }

/-- The inside fit never exceeds the box. -/
theorem insideFitWE_le (w h bw bh : Nat) (hw : 1 ≤ w) (hh : 1 ≤ h) :
    (insideFitWE w h bw bh).1 ≤ bw ∧ (insideFitWE w h bw bh).2 ≤ bh := by
  unfold insideFitWE
  by_cases hfit : w ≤ bw ∧ h ≤ bh
  · rw [if_pos hfit]
    exact hfit
  · rw [if_neg hfit]
    by_cases hcmp : w * bh > h * bw
    · rw [if_pos hcmp]
      refine ⟨le_refl bw, jsRound_le _ _ _ (by omega) ?_⟩
      have hexp : 2 * w * (bh + 1) = 2 * (w * bh) + 2 * w := by ring
      omega
    · rw [if_neg hcmp]
      push_neg at hcmp
      refine ⟨jsRound_le _ _ _ (by omega) ?_, le_refl bh⟩
      have hexp : 2 * h * (bw + 1) = 2 * (h * bw) + 2 * h := by ring
      omega

/-- Counterexample to C5: on a 2000×251 source the planner box is
800×100, the canonical resize lands at 797×100 (the height, not the
width, is the constrained axis once the planner has rounded 100.4 down
to 100), the matte is padded to exactly 800×100, and the two buffers
reach the composite call with different widths — sharp then rejects the
oversize overlay; nothing checked the geometry before the call. -/
theorem composite_geometry_counterexample :
    (pipelineGeometry 2000 251).backdrop = (797, 100) ∧
    (pipelineGeometry 2000 251).matte = (800, 100) ∧
    (pipelineGeometry 2000 251).backdrop ≠ (pipelineGeometry 2000 251).matte ∧
    canComposite (pipelineGeometry 2000 251).backdrop
      (pipelineGeometry 2000 251).matte = false := by
  refine ⟨by decide, by decide, by decide, by decide⟩

/-- C5 amended.  No equality check precedes the composite call: the matte
is padded to exactly the planner box while the backdrop inherits the
inside-fit dimensions, and the two can differ (source 2000×251).  The
equality does hold in every run in which the composite call succeeds,
because the composite operation itself rejects an overlay exceeding the
background and the backdrop never exceeds the box. -/
theorem composite_geometry_amended (w h : Nat) (hw : 1 ≤ w) (hh : 1 ≤ h)
    (hok : canComposite (pipelineGeometry w h).backdrop
      (pipelineGeometry w h).matte = true) :
    (pipelineGeometry w h).backdrop = (pipelineGeometry w h).matte := by
  have hle := insideFitWE_le w h (calculateResizeDimensions w h 800).1
    (calculateResizeDimensions w h 800).2 hw hh
  simp only [pipelineGeometry, containFit, canComposite,
    Bool.and_eq_true, decide_eq_true_eq] at hok ⊢
  have h1 := hok.1
  have h2 := hok.2
  have e1 : (insideFitWE w h (calculateResizeDimensions w h 800).1
      (calculateResizeDimensions w h 800).2).1
      = (calculateResizeDimensions w h 800).1 := le_antisymm hle.1 h1
  have e2 : (insideFitWE w h (calculateResizeDimensions w h 800).1
      (calculateResizeDimensions w h 800).2).2
      = (calculateResizeDimensions w h 800).2 := le_antisymm hle.2 h2
  exact Prod.ext e1 e2

/-- Witness for the amended C5 at a 1600×1200 source: the composite
precondition holds there and both buffers are 800×600. -/
theorem composite_geometry_amended_witness :
    canComposite (pipelineGeometry 1600 1200).backdrop
      (pipelineGeometry 1600 1200).matte = true ∧
    (pipelineGeometry 1600 1200).backdrop = (pipelineGeometry 1600 1200).matte ∧
    (pipelineGeometry 1600 1200).backdrop = (800, 600) :=
  ⟨by decide,
   composite_geometry_amended 1600 1200 (by decide) (by decide) (by decide),
   by decide⟩

/-! ## The POST handlers as functions on a request environment

`Buf` is the syntax tree of sharp operations the handler performs; a data
URI of a buffer is modelled symbolically, so two response fields are
byte-for-byte equal exactly when they encode the same buffer term. -/

/-- A buffer-producing sharp expression, as built by the handlers. -/
inductive Buf where
  | upload
  | decoded (payload : String)
  | white (w h : Nat)
  | resizeInside (src : Buf) (w h : Nat)
  | resizeContain (src : Buf) (w h : Nat)
  | blur (src : Buf) (sigma : ℚ)
  | modulate (src : Buf) (brightness saturation : ℚ)
  | greyscale (src : Buf)
  | composite1 (bg fg : Buf) (blend : String)
  | composite2 (bg fg1 : Buf) (blend1 : String) (fg2 : Buf) (blend2 : String)
deriving DecidableEq

/-- A JSON field value: an error message string or an encoded image
(`data:image/png;base64,` over the buffer bytes). -/
inductive JsonValue where
  | str (s : String)
  | dataUri (b : Buf)
deriving DecidableEq

/-- A `NextResponse.json(body, status)` value: the body field list in
source order and the HTTP status. -/
structure JsonResponse where
  fields : List (String × JsonValue)
  status : Nat
deriving DecidableEq

/-- `Number(formData.get('blurAmount')) || 20` (`route.ts` line 21).
The outer `Option` is field presence (`none` = the form field is absent,
so `get` yields `null` and `Number(null) = 0`); the inner `Option` is the
numeric parse (`none` = NaN).  NaN and 0 are falsy, so both fall back to
the default 20. -/
def blurAmountOf : Option (Option ℚ) → ℚ
  | none => 20
  | some none => 20
  | some (some q) => if q = 0 then 20 else q

/-- The backdrop-plate pipeline of `route.ts` 159–165: blur at the
effective intensity, then modulate with brightness 0.7 and saturation
1.3, on the given source buffer. -/
def blurredBackdropTrace (src : Buf) (q : ℚ) : Buf :=
  .modulate (.blur src q) (mkRat 7 10) (mkRat 13 10)

/-- `sharp(...).metadata()` as the handler sees it: a rejection, or an
object whose `width`/`height` fields may be `undefined`. -/
inductive MetadataResult where
  | throws
  | ok (width : Option Nat) (height : Option Nat)
deriving DecidableEq

/-- JavaScript falsiness of `metadata.width` / `metadata.height`:
`undefined` or `0`. -/
def jsFalsyNat : Option Nat → Bool
  | none => true
  | some n => n = 0

/-- Everything outside the handler that determines one run: the
environment key, the parsed form fields, the decoded upload, the metadata
read, and the matte service's per-attempt behavior. -/
structure RequestEnv where
  apiKeyPresent : Bool
  filePresent : Bool
  fileSize : Nat
  fileTypeImage : Bool
  bufferLen : Nat
  metadata : MetadataResult
  blurField : Option (Option ℚ)
  matteResponses : Nat → CallResult

/-- Modelled from the spec: validity range of the sharp blur sigma
(§4.2 `blur(buf, radius)` together with §4.4 "clamped to a sane positive
range" names the codec constraint; sharp accepts sigmas in [0.3, 1000]
and throws outside it, which the handler surfaces as its catch-all sharp
error). -/
def blurSigmaValid (q : ℚ) : Bool := mkRat 3 10 ≤ q && q ≤ 1000

/-- The generic 500 response of the handler's sharp catch block
(`route.ts` 188–194). -/
def sharpErrorResponse : JsonResponse :=
  ⟨[("error", .str "Error processing image with Sharp")], 500⟩

/-- The canonical resized original: `sharp(buffer).resize(planned,
inside, withoutEnlargement)` on a `w × h` source (`route.ts` 100–105). -/
def resizedBufOf (w h : Nat) : Buf :=
  .resizeInside .upload (calculateResizeDimensions w h 800).1
    (calculateResizeDimensions w h 800).2

/-- The resized matte: decode the service payload and
`resize(planned, contain)` (`route.ts` 150–155). -/
def matteBufOf (payload : String) (w h : Nat) : Buf :=
  .resizeContain (.decoded payload) (calculateResizeDimensions w h 800).1
    (calculateResizeDimensions w h 800).2

/-- The 200 response of `route.ts` 178–186: the four artifacts in source
order, each a data URI over its buffer. -/
def successResponse (w h : Nat) (payload : String) (q : ℚ) : JsonResponse :=
  ⟨[("original", .dataUri (resizedBufOf w h)),
    ("noBackground", .dataUri (matteBufOf payload w h)),
    ("blurredBackground", .dataUri (blurredBackdropTrace (resizedBufOf w h) q)),
    ("combined", .dataUri (.composite1 (blurredBackdropTrace (resizedBufOf w h) q)
      (matteBufOf payload w h) "over"))], 200⟩

/-- The main POST handler (`route.ts` 8–208) as a function of the request
environment: the validation ladder, the metadata gate, the planner, the
retry loop, the backdrop plate, the composite and the four-artifact
response, with every sharp rejection collapsing to the catch-all 500. -/
def handler (env : RequestEnv) : JsonResponse :=
  if !env.apiKeyPresent then
    ⟨[("error", .str "Server configuration error: Remove.bg API key not found")], 500⟩
  else if !env.filePresent then
    ⟨[("error", .str "No image file provided")], 400⟩
  else if env.fileSize > 10 * 1024 * 1024 then
    ⟨[("error", .str "Image file too large (max 10MB)")], 400⟩
  else if !env.fileTypeImage then
    ⟨[("error", .str "Invalid file type. Please upload an image.")], 400⟩
  else if env.bufferLen = 0 then
    ⟨[("error", .str "Invalid image data")], 400⟩
  else
    match env.metadata with
    | .throws => sharpErrorResponse
    | .ok w? h? =>
      if jsFalsyNat w? || jsFalsyNat h? then
        ⟨[("error", .str "Invalid image dimensions")], 400⟩
      else
        match (removeBackgroundRun env.matteResponses).outcome with
        | .err s m => ⟨[("error", .str m)], s⟩
        | .fallthroughExit => sharpErrorResponse
        | .ok payload =>
          if !blurSigmaValid (blurAmountOf env.blurField) then
            sharpErrorResponse
          else if canComposite (pipelineGeometry (w?.getD 0) (h?.getD 0)).backdrop
              (pipelineGeometry (w?.getD 0) (h?.getD 0)).matte then
            successResponse (w?.getD 0) (h?.getD 0) payload (blurAmountOf env.blurField)
          else sharpErrorResponse

/-- A matte service that succeeds at once with a nonempty payload. -/
def goodResponses : Nat → CallResult := fun _ => .success (some "mattePayload")

/-- A request environment on which every stage of the main handler
succeeds: key configured, a small valid image upload of 1600×1200, no
blurAmount field, cooperative matte service. -/
def baseEnv : RequestEnv :=
  { apiKeyPresent := true, filePresent := true, fileSize := 1000,
    fileTypeImage := true, bufferLen := 1000,
    metadata := .ok (some 1600) (some 1200),
    blurField := none, matteResponses := goodResponses }

/-- Counterexample to C6: with metadata reporting width 0 the handler
returns the 400 "Invalid image dimensions" error — it aborts instead of
substituting a default square target and continuing. -/
theorem invalid_dimensions_counterexample :
    handler { baseEnv with metadata := .ok (some 0) (some 100) } =
      ⟨[("error", .str "Invalid image dimensions")], 400⟩ ∧
    (handler { baseEnv with metadata := .ok (some 0) (some 100) }).status ≠ 200 := by
  refine ⟨by decide, by decide⟩

/-- C6 amended.  When metadata reports an absent or zero width or height,
the main handler aborts with a 400 "Invalid image dimensions" error; no
default dimension is substituted and no later stage runs.  (A metadata
read that rejects outright aborts with the catch-all sharp 500.) -/
theorem invalid_dimensions_aborts (env : RequestEnv)
    (hkey : env.apiKeyPresent = true) (hfile : env.filePresent = true)
    (hsize : ¬ env.fileSize > 10 * 1024 * 1024) (htype : env.fileTypeImage = true)
    (hbuf : env.bufferLen ≠ 0) (w? h? : Option Nat)
    (hmd : env.metadata = .ok w? h?)
    (hfalsy : (jsFalsyNat w? || jsFalsyNat h?) = true) :
    handler env = ⟨[("error", .str "Invalid image dimensions")], 400⟩ := by
  simp [handler, hkey, hfile, hsize, htype, hbuf, hmd, hfalsy]

/-- Witness for the amended C6 at the concrete zero-width environment. -/
theorem invalid_dimensions_aborts_witness :
    handler { baseEnv with metadata := .ok (some 0) (some 100) } =
      ⟨[("error", .str "Invalid image dimensions")], 400⟩ :=
  invalid_dimensions_aborts _ rfl rfl (by decide) rfl (by decide)
    (some 0) (some 100) rfl (by decide)

/-- C7.  Every response of the main handler is either the full
four-artifact result (in source order) or a single error field — never a
partially populated result. -/
theorem response_all_or_nothing (env : RequestEnv) :
    (handler env).fields.map Prod.fst =
      ["original", "noBackground", "blurredBackground", "combined"] ∨
    (handler env).fields.map Prod.fst = ["error"] := by
  unfold handler sharpErrorResponse successResponse
  repeat' split
  all_goals first | (left; rfl) | (right; rfl)

/-- Counterexample to C8: the caller-supplied value −5 is not clamped to
a sane positive range — it reaches the sharp blur call as −5, which is
outside sharp's accepted sigma range, and the run collapses to the
catch-all sharp 500 instead of a clamped successful blur. -/
theorem blur_clamp_counterexample :
    blurAmountOf (some (some (mkRat (-5) 1))) = mkRat (-5) 1 ∧
    blurSigmaValid (blurAmountOf (some (some (mkRat (-5) 1)))) = false ∧
    handler { baseEnv with blurField := some (some (mkRat (-5) 1)) } =
      sharpErrorResponse := by
  refine ⟨by decide, by decide, by decide⟩

/-- C8 amended.  The effective blur intensity defaults to 20 when the
field is absent, NaN or 0; any other caller-supplied value is passed
through to the codec unclamped; and on every successful run the
backdrop plate is blur-then-modulate(0.7, 1.3) applied to the same
canonical resized buffer that the `original` artifact encodes. -/
theorem blur_behavior_amended :
    (blurAmountOf none = 20 ∧ blurAmountOf (some none) = 20 ∧
      blurAmountOf (some (some 0)) = 20) ∧
    (∀ q : ℚ, q ≠ 0 → blurAmountOf (some (some q)) = q) ∧
    (∀ env : RequestEnv, ∀ src : Buf,
      ((handler env).fields).lookup "original" = some (.dataUri src) →
      ((handler env).fields).lookup "blurredBackground" =
        some (.dataUri (blurredBackdropTrace src (blurAmountOf env.blurField)))) := by
  refine ⟨⟨rfl, rfl, by decide⟩, ?_, ?_⟩
  · intro q hq
    simp [blurAmountOf, hq]
  · intro env src
    unfold handler sharpErrorResponse successResponse
    repeat' split
    all_goals intro hlook
    all_goals simp [List.lookup] at hlook ⊢
    rw [← hlook]

/-- Witness for the amended C8: 35 passes through unchanged, and on the
all-good environment the backdrop plate is the blur/modulate trace of the
800×600 canonical buffer that `original` encodes. -/
theorem blur_behavior_amended_witness :
    blurAmountOf (some (some 35)) = 35 ∧
    ((handler baseEnv).fields).lookup "blurredBackground" =
      some (.dataUri (blurredBackdropTrace (Buf.resizeInside .upload 800 600)
        (blurAmountOf baseEnv.blurField))) :=
  ⟨blur_behavior_amended.2.1 35 (by decide),
   blur_behavior_amended.2.2 baseEnv (Buf.resizeInside .upload 800 600) (by decide)⟩

/-- C10.  The effective blur amount is exactly 20 when the blurAmount
field is absent (JavaScript coerces `null` to 0, which is falsy), parses
to 0, or fails to parse (NaN); in particular no request can make the
effective blur amount 0. -/
theorem blur_zero_coerced_to_default :
    blurAmountOf none = 20 ∧ blurAmountOf (some (some 0)) = 20 ∧
    blurAmountOf (some none) = 20 ∧ ∀ f, blurAmountOf f ≠ 0 := by
  refine ⟨rfl, by decide, rfl, ?_⟩
  intro f
  rcases f with _ | f
  · decide
  rcases f with _ | q
  · decide
  · unfold blurAmountOf
    by_cases hq : q = 0
    · simp [hq]
    · simp [hq]

/-! ## The simplified local-matte variant (second handler in
`route.ts`, lines 229–301) -/

/-- The response record of both handlers (`src/types/index.ts`
`ProcessedImage`): four independently encoded artifacts. -/
structure ProcessedImage where
  original : JsonValue
  noBackground : JsonValue
  blurredBackground : JsonValue
  combined : JsonValue
deriving DecidableEq

/-- The simplified POST handler: resize the upload into an 800×800 box,
synthesize a greyscale blurred mask, composite mask and resized image
over a white canvas, and encode — with both `original` and `noBackground`
taken from the very same resized buffer (lines 287–288). -/
def simplifiedHandler (input : Buf) : ProcessedImage :=
  let resizedBuffer := Buf.resizeInside input 800 800
  let mask := Buf.blur (Buf.greyscale resizedBuffer) 20
  let whiteBackground := Buf.white 800 800
  let combined := Buf.composite2 whiteBackground mask "multiply" resizedBuffer "over"
  { original := .dataUri resizedBuffer,
    noBackground := .dataUri resizedBuffer,
    blurredBackground := .dataUri mask,
    combined := .dataUri combined }

/-- C9.  In the simplified variant the `noBackground` data URI is
byte-for-byte the `original` data URI — both encode the same resized
buffer, so no background removal occurs there. -/
theorem simplified_noBackground_eq_original (input : Buf) :
    (simplifiedHandler input).noBackground = (simplifiedHandler input).original ∧
    (simplifiedHandler input).noBackground =
      .dataUri (Buf.resizeInside input 800 800) :=
  ⟨rfl, rfl⟩

end ImageProcessor
